import Mathlib

set_option maxHeartbeats 1000000

/-!
Verification model of the BigQuery-writer Cloud Run entry point
(src/functions/gcp/v1/src/functions/bigquery_writer/main.py).

External collaborators (configuration loading, the BigQuery adapter, the
GCS adapter, base64/JSON decoding, the two pydantic validations, and the
writer helpers from .writer) are modelled as an environment of
`Except`-returning operations: `Except.error e` models the operation
raising the Python exception `e`, `Except.ok` models a normal return.
The handler itself is translated statement by statement; its observable
effects (calls to write_extraction_metrics, writes of error artifacts to
the failed bucket) are collected in a `Trace`, and an exception escaping
the handler is the `Option Exn` component of its result.

Machine-level notes on the translation:
- Python floats carried through verbatim (confidence scores) are modelled
  as `Rat`; the handler performs no floating-point arithmetic on them.
- `str` payloads of JSON dicts are opaque here: `RawMap` is an association
  list standing for a Python dict that is only stored, never inspected.
-/

/-- A Python dict that main.py only carries around and serializes. -/
abbrev RawMap := List (String × String)

/-- One entry of pydantic ValidationError.errors(): loc tuple (each element
already rendered with str), type, msg and input. -/
structure PydanticErr where
  loc : List String
  type : String
  msg : String
  input : String
deriving DecidableEq, Repr

/-- A Python exception value as far as main.py can observe it:
`validationError msg errs` is a pydantic ValidationError (with its str()
rendering and its errors() list); `exn name msg` is any other exception
with type(e).__name__ = name and str(e) = msg. -/
inductive Exn where
  | validationError (msg : String) (errors : List PydanticErr)
  | exn (name : String) (msg : String)
deriving DecidableEq, Repr

/-- type(error).__name__ as used at main.py:309. -/
def exnTypeName : Exn → String
  | .validationError _ _ => "ValidationError"
  | .exn name _ => name

/-- str(error). -/
def exnStr : Exn → String
  | .validationError msg _ => msg
  | .exn _ msg => msg

/-- isinstance(error, ValidationError). -/
def isValidationError : Exn → Bool
  | .validationError _ _ => true
  | .exn _ _ => false

/-- f-string rendering of an Optional[str], as in
f"BigQuery write failed: \x7bresult.error\x7d" at main.py:118. -/
def pyStrOpt : Option String → String
  | some s => s
  | none => "None"

/-- InvoiceExtractedMessage (shared.schemas.messages), the fields main.py
reads; vendor_type is kept as its string value. -/
structure InvoiceExtractedMessage where
  source_file : String
  vendor_type : String
  extraction_model : String
  extraction_latency_ms : Int
  confidence_score : Rat
  extracted_data : RawMap
deriving DecidableEq, Repr

/-- ExtractedInvoice (shared.schemas.invoice), the fields main.py reads.
Line items are opaque. -/
structure ExtractedInvoice where
  invoice_id : String
  vendor_type : String
  total_amount : Rat
  line_items : List String
deriving DecidableEq, Repr

/-- WriteResult returned by write_invoice_to_bigquery (.writer). -/
structure WriteResult where
  success : Bool
  is_duplicate : Bool
  rows_written : Nat
  error : Option String
deriving DecidableEq, Repr

/-- The argument tuple of one call to write_extraction_metrics (.writer);
one such call appends at most one metrics record. -/
structure MetricsCall where
  invoice_id : String
  vendor_type : String
  source_file : String
  extraction_model : String
  extraction_latency_ms : Int
  confidence_score : Rat
  success : Bool
  error_message : Option String
deriving DecidableEq, Repr

/-- One entry of validation_details.errors in the error record
(main.py:283-291). -/
structure ValidationErrEntry where
  field : String
  type : String
  message : String
  input : String
deriving DecidableEq, Repr

/-- validation_details in the error record (main.py:280-292). -/
structure ValidationDetails where
  error_count : Nat
  errors : List ValidationErrEntry
deriving DecidableEq, Repr

/-- error_metadata block of the error record (main.py:306-313). -/
structure ErrorMetadata where
  timestamp : String
  failed_stage : String
  error_type : String
  error_message : String
  is_validation_error : Bool
  validation_details : Option ValidationDetails
deriving DecidableEq, Repr

/-- invoice_context block of the error record (main.py:314-320). -/
structure InvoiceContext where
  source_file : String
  invoice_id : String
  vendor_type : String
  extraction_model : String
  confidence_score : Rat
deriving DecidableEq, Repr

/-- The structured error record built by _create_error_record
(main.py:305-324). -/
structure ErrorRecord where
  error_metadata : ErrorMetadata
  invoice_context : InvoiceContext
  extracted_data : RawMap
  raw_message : RawMap
  remediation_hints : List String
deriving DecidableEq, Repr

/-- Application configuration (shared.utils.get_config), the fields
main.py reads. -/
structure Config where
  project_id : String
  dataset : String
  invoices_table : String
  line_items_table : String
  metrics_table : String
  failed_bucket : String
deriving DecidableEq, Repr

/-- str(e.input)[:200] at main.py:288: first n characters of a string. -/
def strTake (n : Nat) (s : String) : String := String.mk (s.toList.take n)

/-- Split a character list on a separator character; like Python
str.split, the empty list yields one empty component. -/
def splitOnChar (sep : Char) : List Char → List (List Char)
  | [] => [[]]
  | c :: rest =>
    let r := splitOnChar sep rest
    if c = sep then [] :: r
    else
      match r with
      | [] => [[c]]
      | h :: t => (c :: h) :: t

/-- Model of pathlib PurePosixPath .name: the last non-empty component
after splitting on the path separator. -/
def pathName (s : String) : String :=
  String.mk (((splitOnChar '/' s.toList).filter (fun c => c ≠ [])).getLastD [])

/-- Index of the last occurrence of a dot, Python str.rfind. -/
def lastDotIndex (cs : List Char) : Option Nat :=
  match cs.reverse.findIdx? (fun c => c = '.') with
  | some j => some (cs.length - 1 - j)
  | none => none

/-- Model of pathlib .stem: name with its final suffix removed, where a
suffix exists only when the last dot has index i with 0 < i < len - 1. -/
def pathStem (s : String) : String :=
  let name := pathName s
  let cs := name.toList
  match lastDotIndex cs with
  | some i => if 0 < i ∧ i < cs.length - 1 then String.mk (cs.take i) else name
  | none => name

/-- Model of re.sub at main.py:374: delete a trailing match of
_page followed by one or more ASCII digits. -/
def stripPageSuffix (s : String) : String :=
  let r := s.toList.reverse
  let ds := r.takeWhile (fun c => c.isDigit)
  let rest := r.drop ds.length
  if 0 < ds.length ∧ rest.take 5 = ['e', 'g', 'a', 'p', '_'] then
    String.mk (rest.drop 5).reverse
  else s

/-- Boolean test that one character list starts with another. -/
def chStartsWith : List Char → List Char → Bool
  | [], _ => true
  | _ :: _, [] => false
  | a :: as, b :: bs => a == b && chStartsWith as bs

/-- Helper for Python substring membership over character lists. -/
def containsSubAux (pat : List Char) : List Char → Bool
  | [] => pat.isEmpty
  | c :: rest => chStartsWith pat (c :: rest) || containsSubAux pat rest

/-- Python "pat in s" on strings. -/
def containsSub (s pat : String) : Bool :=
  containsSubAux pat.toList s.toList

/-- _generate_error_filename (main.py:362-381). The third branch's
timestamp, datetime.now().strftime("%Y%m%d_%H%M%S") in the source, is
passed in explicitly as nowCompact. Python truthiness of a string is
non-emptiness. -/
def generate_error_filename (nowCompact : String) (source_file invoice_id : String) : String :=
  if source_file ≠ "" ∧ source_file ≠ "unknown" then
    stripPageSuffix (pathStem source_file) ++ ".error.json"
  else if invoice_id ≠ "" ∧ invoice_id ≠ "unknown" then
    invoice_id ++ ".error.json"
  else
    "unknown_" ++ nowCompact ++ ".error.json"

/-- Loop body of _generate_remediation_hints (main.py:336-354): the hint,
if any, contributed by one validation-error entry. -/
def hintForError (err : PydanticErr) : Option String :=
  let field := String.intercalate "." err.loc
  let t := err.type
  if containsSub t "greater_than" || containsSub t "less_than" then
    some ("Field \x27" ++ field ++ "\x27 has numeric constraint violation. " ++
      "Check if this is a discount/credit that should be handled differently.")
  else if containsSub t "missing" then
    some ("Required field \x27" ++ field ++ "\x27 is missing. " ++
      "Review extraction prompt for this field.")
  else if containsSub t "string_type" || containsSub t "type_error" then
    some ("Field \x27" ++ field ++ "\x27 has wrong type. " ++
      "Check LLM output format for this field.")
  else none

/-- The generic fallback hint (main.py:357). -/
def genericHint : String := "Manual review required - error pattern not recognized."

/-- _generate_remediation_hints (main.py:327-359). -/
def generate_remediation_hints (error : Exn) : List String :=
  let hints := match error with
    | .validationError _ errs => errs.filterMap hintForError
    | .exn _ _ => []
  if hints.isEmpty then [genericHint] else hints

/-- One entry of the validation-details comprehension at main.py:284-289:
loc joined with dots, the type, the message, the input truncated to 200
characters. -/
def validationEntryOf (err : PydanticErr) : ValidationErrEntry :=
  { field := String.intercalate "." err.loc,
    type := err.type,
    message := err.msg,
    input := strTake 200 err.input }

/-- The validation_details dict at main.py:281-292. -/
def validationDetailsOf (errs : List PydanticErr) : ValidationDetails :=
  { error_count := errs.length, errors := errs.map validationEntryOf }

/-- _create_error_record (main.py:260-324). The timestamp parameter is the
isoformat rendering of the datetime handed in by the caller. -/
def create_error_record (source_file invoice_id : String) (error : Exn)
    (raw_message : RawMap) (message : Option InvoiceExtractedMessage)
    (timestamp : String) : ErrorRecord :=
  let validation_details : Option ValidationDetails :=
    match error with
    | .validationError _ errs => some (validationDetailsOf errs)
    | .exn _ _ => none
  let vendor_type := match message with | some m => m.vendor_type | none => "unknown"
  let extraction_model := match message with | some m => m.extraction_model | none => "unknown"
  let confidence_score : Rat := match message with | some m => m.confidence_score | none => 0
  let extracted_data : RawMap := match message with | some m => m.extracted_data | none => []
  { error_metadata := {
      timestamp := timestamp,
      failed_stage := "bigquery-writer",
      error_type := exnTypeName error,
      error_message := exnStr error,
      is_validation_error := isValidationError error,
      validation_details := validation_details },
    invoice_context := {
      source_file := source_file,
      invoice_id := invoice_id,
      vendor_type := vendor_type,
      extraction_model := extraction_model,
      confidence_score := confidence_score },
    extracted_data := extracted_data,
    raw_message := raw_message,
    remediation_hints := generate_remediation_hints error }

/-- The environment of external collaborators of handle_invoice_extracted.
Each field gives the outcome of one external operation: Except.error e
models the operation raising e. Configured dataset/table names are read
by the writer helpers themselves; here they are absorbed into the
behavior functions. -/
structure Env where
  config : Except Exn Config
  adapter : Except Exn Unit
  decoded : Except Exn RawMap
  validate_message : RawMap → Except Exn InvoiceExtractedMessage
  validate_invoice : RawMap → Except Exn ExtractedInvoice
  write_invoice : ExtractedInvoice → Except Exn WriteResult
  write_metrics : MetricsCall → Except Exn Unit
  gcs_adapter : Except Exn Unit
  gcs_write : String → String → ErrorRecord → Except Exn Unit
  now_iso : String
  now_compact : String

/-- Observable effects of one handler invocation: every call made to
write_extraction_metrics together with whether the call returned normally
(appended its record), every error artifact successfully written to the
failed bucket (key and record), whether write_invoice_to_bigquery was
invoked, and the WriteResult it returned if it returned one. -/
structure Trace where
  metrics_calls : List (MetricsCall × Bool)
  bucket_writes : List (String × ErrorRecord)
  invoice_write_attempted : Bool
  write_result : Option WriteResult
deriving DecidableEq, Repr

/-- The trace with no effects. -/
def empty_trace : Trace :=
  { metrics_calls := [], bucket_writes := [], invoice_write_attempted := false,
    write_result := none }

/-- Local state of the handler's try block: the source_file / invoice_id
variables (initialised "unknown" at main.py:65-66), whether raw_message
and message got bound (the dir() checks at main.py:170-189 test exactly
this), and the effects so far. -/
structure TryState where
  source_file : String
  invoice_id : String
  raw_message : Option RawMap
  message : Option InvoiceExtractedMessage
  trace : Trace
deriving DecidableEq, Repr

/-- Try-block entry state. -/
def init_state : TryState :=
  { source_file := "unknown", invoice_id := "unknown", raw_message := none,
    message := none, trace := empty_trace }

/-- True iff an external call returned normally. -/
def isOkB : Except Exn Unit → Bool
  | .ok _ => true
  | .error _ => false

/-- Argument tuple of the success-path write_extraction_metrics call
(main.py:120-131). -/
def success_metrics_call (m : InvoiceExtractedMessage) (invoice_id source_file : String) :
    MetricsCall :=
  { invoice_id := invoice_id,
    vendor_type := m.vendor_type,
    source_file := source_file,
    extraction_model := m.extraction_model,
    extraction_latency_ms := m.extraction_latency_ms,
    confidence_score := m.confidence_score,
    success := true,
    error_message := none }

/-- Argument tuple of the failure-path write_extraction_metrics call
(main.py:165-177); note the unconditional confidence_score=0.0 at
main.py:174, and the dir()-guarded fallbacks for unbound message. -/
def failure_metrics_call (st : TryState) (e : Exn) : MetricsCall :=
  { invoice_id := st.invoice_id,
    vendor_type := match st.message with | some m => m.vendor_type | none => "other",
    source_file := st.source_file,
    extraction_model := match st.message with | some m => m.extraction_model | none => "unknown",
    extraction_latency_ms := match st.message with | some m => m.extraction_latency_ms | none => 0,
    confidence_score := 0,
    success := false,
    error_message := some (exnStr e) }

/-- _write_failure_to_bucket (main.py:211-257): construct the GCS adapter,
build the error record and filename, write the artifact. An error from
any of these propagates to the caller; on success the key and record
written are returned so the caller can trace the artifact. -/
def write_failure_to_bucket (env : Env) (config : Config) (source_file invoice_id : String)
    (error : Exn) (raw_message : RawMap) (message : Option InvoiceExtractedMessage) :
    Except Exn (String × ErrorRecord) :=
  match env.gcs_adapter with
  | .error e => .error e
  | .ok _ =>
    let record := create_error_record source_file invoice_id error raw_message message
      env.now_iso
    let filename := generate_error_filename env.now_compact source_file invoice_id
    match env.gcs_write config.failed_bucket filename record with
    | .ok _ => .ok (filename, record)
    | .error e => .error e

/-- The try block of handle_invoice_extracted (main.py:68-151): decode,
validate the envelope, re-validate the invoice, persist, record success
metrics. Returns the local state reached and the exception raised, if
any. The duplicate/persisted logging at main.py:133-151 has no modelled
effect. -/
def try_body (env : Env) : TryState × Option Exn :=
  match env.decoded with
  | .error e => (init_state, some e)
  | .ok raw =>
    let st1 := { init_state with raw_message := some raw }
    match env.validate_message raw with
    | .error e => (st1, some e)
    | .ok m =>
      let st2 := { st1 with message := some m, source_file := m.source_file }
      match env.validate_invoice m.extracted_data with
      | .error e => (st2, some e)
      | .ok inv =>
        let st3 :=
          { st2 with
            invoice_id := inv.invoice_id
            trace := { st2.trace with invoice_write_attempted := true } }
        match env.write_invoice inv with
        | .error e => (st3, some e)
        | .ok r =>
          let st4 := { st3 with trace := { st3.trace with write_result := some r } }
          if r.success = false then
            (st4, some (.exn "RuntimeError" ("BigQuery write failed: " ++ pyStrOpt r.error)))
          else
            let call := success_metrics_call m st4.invoice_id st4.source_file
            match env.write_metrics call with
            | .error e =>
              ({ st4 with trace := { st4.trace with
                  metrics_calls := st4.trace.metrics_calls ++ [(call, false)] } }, some e)
            | .ok _ =>
              ({ st4 with trace := { st4.trace with
                  metrics_calls := st4.trace.metrics_calls ++ [(call, true)] } }, none)

/-- Body of handle_invoice_extracted after config and adapter
construction (main.py:65-208): run the try block; on an exception, run
the except block — a best-effort failure-metrics call (main.py:164-179,
its own exception swallowed by the bare except) and a best-effort
error-artifact write (main.py:182-207, its own exception caught and only
logged) — and return without re-raising (main.py:208). -/
def handler_body (env : Env) (config : Config) : Trace :=
  match try_body env with
  | (st, none) => st.trace
  | (st, some e) =>
    let fcall := failure_metrics_call st e
    let mc := st.trace.metrics_calls ++ [(fcall, isOkB (env.write_metrics fcall))]
    let bw := match write_failure_to_bucket env config st.source_file st.invoice_id e
        (st.raw_message.getD []) st.message with
      | .ok fr => st.trace.bucket_writes ++ [fr]
      | .error _ => st.trace.bucket_writes
    { metrics_calls := mc,
      bucket_writes := bw,
      invoice_write_attempted := st.trace.invoice_write_attempted,
      write_result := st.trace.write_result }

/-- handle_invoice_extracted (main.py:35-208). get_config() and the
GCPBigQueryAdapter construction at main.py:62-63 run before the
try/except boundary, so an exception from either escapes; afterwards the
body never lets an exception escape. The Option Exn component is the
exception escaping the handler, if any. -/
def handle_invoice_extracted (env : Env) : Trace × Option Exn :=
  match env.config with
  | .error e => (empty_trace, some e)
  | .ok config =>
    match env.adapter with
    | .error e => (empty_trace, some e)
    | .ok _ => (handler_body env config, none)

/-- A concrete configuration for witness runs. -/
def cfg0 : Config :=
  { project_id := "proj", dataset := "ds", invoices_table := "invoices",
    line_items_table := "line_items", metrics_table := "metrics",
    failed_bucket := "failed" }

/-- A concrete well-formed inbound message for witness runs. -/
def msg0 : InvoiceExtractedMessage :=
  { source_file := "gs://bucket/landing/ubereats_INV-UE-123_page2.tiff",
    vendor_type := "ubereats",
    extraction_model := "gemini-2.0-flash",
    extraction_latency_ms := 1200,
    confidence_score := 9 / 10,
    extracted_data := [("invoice_id", "INV-UE-123")] }

/-- A concrete re-validated invoice for witness runs. -/
def inv0 : ExtractedInvoice :=
  { invoice_id := "INV-UE-123", vendor_type := "ubereats", total_amount := 42,
    line_items := ["li1", "li2", "li3"] }

/-- A pydantic error entry for a missing invoice_id field. -/
def missingInvoiceIdErr : PydanticErr :=
  { loc := ["invoice_id"], type := "missing", msg := "Field required", input := "" }

/-- A ValidationError for a payload whose invoice_id is missing. -/
def missingInvoiceIdExn : Exn :=
  .validationError "1 validation error for ExtractedInvoice" [missingInvoiceIdErr]

/-- A pydantic error entry for a missing total_amount field. -/
def missingTotalAmountErr : PydanticErr :=
  { loc := ["total_amount"], type := "missing", msg := "Field required", input := "" }

/-- Environment in which every external operation succeeds. -/
def envOk : Env :=
  { config := .ok cfg0,
    adapter := .ok (),
    decoded := .ok [("source_file", "gs://bucket/landing/ubereats_INV-UE-123_page2.tiff")],
    validate_message := fun _ => .ok msg0,
    validate_invoice := fun _ => .ok inv0,
    write_invoice := fun _ =>
      .ok { success := true, is_duplicate := false, rows_written := 4, error := none },
    write_metrics := fun _ => .ok (),
    gcs_adapter := .ok (),
    gcs_write := fun _ _ _ => .ok (),
    now_iso := "2026-10-12T00:00:00+00:00",
    now_compact := "20261012_000000" }

/-- Environment whose configuration loading raises. -/
def envCfgFail : Env :=
  { envOk with config := .error (.exn "RuntimeError" "missing env var") }

/-- Environment whose BigQuery adapter construction raises. -/
def envAdapterFail : Env :=
  { envOk with adapter := .error (.exn "DefaultCredentialsError" "no credentials") }

/-- Environment whose message decode raises. -/
def envDecodeFail : Env :=
  { envOk with decoded := .error (.exn "JSONDecodeError" "Expecting value") }

/-- Environment whose invoice re-validation raises on a missing invoice_id. -/
def envInvoiceFail : Env :=
  { envOk with validate_invoice := fun _ => .error missingInvoiceIdExn }

/-- A WriteResult reporting a failed store write. -/
def wrFail : WriteResult :=
  { success := false, is_duplicate := false, rows_written := 0,
    error := some "quota exceeded" }

/-- A WriteResult reporting a detected duplicate. -/
def wrDup : WriteResult :=
  { success := true, is_duplicate := true, rows_written := 0, error := none }

/-- Environment whose persistence reports failure through WriteResult. -/
def envPersistFail : Env :=
  { envOk with write_invoice := fun _ => .ok wrFail }

/-- Environment whose persistence reports a duplicate. -/
def envDup : Env :=
  { envOk with write_invoice := fun _ => .ok wrDup }

/-- Environment where metrics recording always raises. -/
def envMetricsFail : Env :=
  { envOk with write_metrics := fun _ => .error (.exn "GoogleAPIError" "insert failed") }

example : generate_error_filename "ts" "gs://bucket/landing/ubereats_INV-UE-123_page2.tiff" "x"
    = "ubereats_INV-UE-123.error.json" := by decide

example : (handle_invoice_extracted envOk).2 = none := by decide

example : (handle_invoice_extracted envOk).1.metrics_calls.length = 1 := by decide

example : (handle_invoice_extracted envDecodeFail).1.bucket_writes.length = 1 := by decide

example : (handle_invoice_extracted envMetricsFail).1.metrics_calls.length = 2 := by decide

/-- Shape of the try block's effects: it writes no error artifacts, every
metrics call it makes is the success-path call (success=true, made only
after write_invoice_to_bigquery returned a successful WriteResult), and
if it completes without an exception it has made exactly that one call. -/
theorem try_body_shape (env : Env) :
    (try_body env).1.trace.bucket_writes = [] ∧
    (∀ p ∈ (try_body env).1.trace.metrics_calls,
      p.1.success = true ∧
      ∃ r, (try_body env).1.trace.write_result = some r ∧ r.success = true) ∧
    ((try_body env).2 = none →
      ((try_body env).1.trace.metrics_calls.map fun p => p.1.success) = [true]) := by
  rcases hd : env.decoded with e | raw
  · simp [try_body, hd, init_state, empty_trace]
  · rcases hm : env.validate_message raw with e | m
    · simp [try_body, hd, hm, init_state, empty_trace]
    · rcases hi : env.validate_invoice m.extracted_data with e | inv
      · simp [try_body, hd, hm, hi, init_state, empty_trace]
      · rcases hw : env.write_invoice inv with e | r
        · simp [try_body, hd, hm, hi, hw, init_state, empty_trace]
        · by_cases hs : r.success = false
          · simp [try_body, hd, hm, hi, hw, hs, init_state, empty_trace]
          · rcases hwm : env.write_metrics (success_metrics_call m inv.invoice_id m.source_file)
              with e | u
            · simp only [try_body, hd, hm, hi, hw, hs, hwm, init_state, empty_trace]
              simp [success_metrics_call, hs]
            · simp only [try_body, hd, hm, hi, hw, hs, hwm, init_state, empty_trace]
              simp [success_metrics_call, hs]

/-- Claim C1: for every inbound CloudEvent, once the orchestrator boundary is
reached (configuration and adapter construction returned normally), the
handler returns without raising, whatever exceptions decoding, envelope
validation, invoice re-validation, persistence, success-metrics
recording, failure-metrics recording or the error-artifact write throw:
the environment is arbitrary in all of those. -/
theorem handler_never_raises_past_boundary (env : Env) (c : Config)
    (hc : env.config = Except.ok c) (ha : env.adapter = Except.ok ()) :
    (handle_invoice_extracted env).2 = none := by
  simp [handle_invoice_extracted, hc, ha]

/-- Witness for C1: the boundary hypotheses hold and no exception escapes
in an environment where every metrics append raises. -/
theorem handler_never_raises_past_boundary_witness :
    envMetricsFail.config = Except.ok cfg0 ∧ envMetricsFail.adapter = Except.ok () ∧
    (handle_invoice_extracted envMetricsFail).2 = none :=
  ⟨rfl, rfl, handler_never_raises_past_boundary envMetricsFail cfg0 rfl rfl⟩

/-- Claim C10: get_config() and the BigQuery adapter construction run before the
try/except boundary, so an exception from either escapes the handler and
the attempt records no metrics call and no error artifact. -/
theorem config_and_adapter_exceptions_escape (env : Env) :
    (∀ e, env.config = Except.error e →
      handle_invoice_extracted env = (empty_trace, some e)) ∧
    (∀ c e, env.config = Except.ok c → env.adapter = Except.error e →
      handle_invoice_extracted env = (empty_trace, some e)) ∧
    empty_trace.metrics_calls = [] ∧ empty_trace.bucket_writes = [] := by
  refine ⟨?_, ?_, rfl, rfl⟩
  · intro e he
    simp [handle_invoice_extracted, he]
  · intro c e hcfg hads
    simp [handle_invoice_extracted, hcfg, hads]

/-- Witness for C10: a raising get_config makes the exception escape with
an empty effect trace. -/
theorem config_and_adapter_exceptions_escape_witness :
    envCfgFail.config = Except.error (.exn "RuntimeError" "missing env var") ∧
    handle_invoice_extracted envCfgFail =
      (empty_trace, some (.exn "RuntimeError" "missing env var")) :=
  ⟨rfl, (config_and_adapter_exceptions_escape envCfgFail).1
    (.exn "RuntimeError" "missing env var") rfl⟩

/-- Claim C3: _generate_error_filename's priority-ordered key derivation: a
known source file yields its stem with any trailing _page digits suffix
stripped plus .error.json (with the spec's concrete example); otherwise a
known invoice id yields invoiceId.error.json; otherwise
unknown_timestamp.error.json. -/
theorem error_filename_priority_derivation :
    (∀ ts iid,
      generate_error_filename ts "gs://bucket/landing/ubereats_INV-UE-123_page2.tiff" iid =
        "ubereats_INV-UE-123.error.json") ∧
    (∀ ts sf iid, sf ≠ "" → sf ≠ "unknown" →
      generate_error_filename ts sf iid = stripPageSuffix (pathStem sf) ++ ".error.json") ∧
    (∀ ts sf iid, (sf = "" ∨ sf = "unknown") → iid ≠ "" → iid ≠ "unknown" →
      generate_error_filename ts sf iid = iid ++ ".error.json") ∧
    (∀ ts sf iid, (sf = "" ∨ sf = "unknown") → (iid = "" ∨ iid = "unknown") →
      generate_error_filename ts sf iid = "unknown_" ++ ts ++ ".error.json") := by
  have h1 : ∀ ts sf iid, sf ≠ "" → sf ≠ "unknown" →
      generate_error_filename ts sf iid = stripPageSuffix (pathStem sf) ++ ".error.json" := by
    intro ts sf iid hne hnu
    simp [generate_error_filename, hne, hnu]
  have h2 : ∀ ts sf iid, (sf = "" ∨ sf = "unknown") → iid ≠ "" → iid ≠ "unknown" →
      generate_error_filename ts sf iid = iid ++ ".error.json" := by
    intro ts sf iid hsf hne hnu
    rcases hsf with rfl | rfl <;> simp +decide [generate_error_filename, hne, hnu]
  have h3 : ∀ ts sf iid, (sf = "" ∨ sf = "unknown") → (iid = "" ∨ iid = "unknown") →
      generate_error_filename ts sf iid = "unknown_" ++ ts ++ ".error.json" := by
    intro ts sf iid hsf hiid
    rcases hsf with rfl | rfl <;> rcases hiid with rfl | rfl <;>
      simp +decide [generate_error_filename]
  refine ⟨?_, h1, h2, h3⟩
  intro ts iid
  rw [h1 ts _ iid (by decide) (by decide)]
  decide

/-- Witness for C3: the invoice-id fallback at a concrete input. -/
theorem error_filename_priority_derivation_witness :
    generate_error_filename "20261012_000000" "unknown" "INV-GH-456" =
      "INV-GH-456.error.json" :=
  error_filename_priority_derivation.2.2.1 "20261012_000000" "unknown" "INV-GH-456"
    (Or.inr rfl) (by decide) (by decide)

/-- Claim C4: _generate_remediation_hints is a pure function of the error. For a
schema-validation error each violated field contributes a hint picked by
constraint kind (numeric range, missing required field, type mismatch,
each naming the field), every per-field hint so produced appears in the
output, and an error matching no recognized pattern (a non-validation
error, or a validation error none of whose entries classify) yields
exactly the one generic manual-review hint; being a total Lean function
it never raises. -/
theorem remediation_hints_classification :
    (∀ err : PydanticErr,
      (containsSub err.type "greater_than" || containsSub err.type "less_than") = true →
      hintForError err = some ("Field \x27" ++ String.intercalate "." err.loc ++
        "\x27 has numeric constraint violation. " ++
        "Check if this is a discount/credit that should be handled differently.")) ∧
    (∀ err : PydanticErr,
      (containsSub err.type "greater_than" || containsSub err.type "less_than") = false →
      containsSub err.type "missing" = true →
      hintForError err = some ("Required field \x27" ++ String.intercalate "." err.loc ++
        "\x27 is missing. " ++ "Review extraction prompt for this field.")) ∧
    (∀ err : PydanticErr,
      (containsSub err.type "greater_than" || containsSub err.type "less_than") = false →
      containsSub err.type "missing" = false →
      (containsSub err.type "string_type" || containsSub err.type "type_error") = true →
      hintForError err = some ("Field \x27" ++ String.intercalate "." err.loc ++
        "\x27 has wrong type. " ++ "Check LLM output format for this field.")) ∧
    (∀ msg errs err h, err ∈ errs → hintForError err = some h →
      h ∈ generate_remediation_hints (.validationError msg errs)) ∧
    (∀ msg errs, (∀ err ∈ errs, hintForError err = none) →
      generate_remediation_hints (.validationError msg errs) = [genericHint]) ∧
    (∀ name msg, generate_remediation_hints (.exn name msg) = [genericHint]) ∧
    generate_remediation_hints missingInvoiceIdExn =
      ["Required field \x27invoice_id\x27 is missing. Review extraction prompt for this field."] := by
  refine ⟨?_, ?_, ?_, ?_, ?_, ?_, by decide⟩
  · intro err hgt
    simp [hintForError, hgt]
  · intro err hgt hmiss
    simp [hintForError, hgt, hmiss]
  · intro err hgt hmiss hty
    simp [hintForError, hgt, hmiss, hty]
  · intro msg errs err h hmem hsome
    have hin : h ∈ errs.filterMap hintForError := List.mem_filterMap.mpr ⟨err, hmem, hsome⟩
    have hne : (errs.filterMap hintForError).isEmpty = false := by
      rcases hfm : errs.filterMap hintForError with _ | ⟨a, t⟩
      · rw [hfm] at hin; cases hin
      · rfl
    simpa [generate_remediation_hints, hne] using hin
  · intro msg errs hall
    have hnil : errs.filterMap hintForError = [] := List.filterMap_eq_nil_iff.mpr hall
    simp [generate_remediation_hints, hnil]
  · intro name msg
    simp [generate_remediation_hints]

/-- Witness for C4: the missing-required-field case applied at the
total_amount entry from the spec's example. -/
theorem remediation_hints_classification_witness :
    hintForError missingTotalAmountErr =
      some "Required field \x27total_amount\x27 is missing. Review extraction prompt for this field." :=
  remediation_hints_classification.2.1 missingTotalAmountErr (by decide) (by decide)

/-- Claim C7: _create_error_record populates the documented structure: the
error_metadata fields carry the given timestamp, the fixed failed stage,
the exception's type name and message, is_validation_error is true
exactly when the error is a ValidationError (and then validation_details
is the per-field detail list, otherwise it is absent), invoice_context
carries the given source file and invoice id plus the message-derived
context (with unknown/zero fallbacks when no message survived), the raw
payloads are embedded, and the hints come from the hint generator; in
particular a validation error entry of type missing at loc invoice_id
yields a missing entry for field invoice_id in
validation_details.errors. -/
theorem error_record_structure (sf iid : String) (error : Exn) (raw : RawMap)
    (message : Option InvoiceExtractedMessage) (ts : String) :
    (create_error_record sf iid error raw message ts).error_metadata.timestamp = ts ∧
    (create_error_record sf iid error raw message ts).error_metadata.failed_stage =
      "bigquery-writer" ∧
    (create_error_record sf iid error raw message ts).error_metadata.error_type =
      exnTypeName error ∧
    (create_error_record sf iid error raw message ts).error_metadata.error_message =
      exnStr error ∧
    ((create_error_record sf iid error raw message ts).error_metadata.is_validation_error =
        true ↔ ∃ msg errs, error = .validationError msg errs) ∧
    (∀ msg errs, error = .validationError msg errs →
      (create_error_record sf iid error raw message ts).error_metadata.validation_details =
        some (validationDetailsOf errs)) ∧
    (∀ name msg, error = .exn name msg →
      (create_error_record sf iid error raw message ts).error_metadata.validation_details =
        none) ∧
    (create_error_record sf iid error raw message ts).invoice_context.source_file = sf ∧
    (create_error_record sf iid error raw message ts).invoice_context.invoice_id = iid ∧
    (create_error_record sf iid error raw message ts).invoice_context.vendor_type =
      (match message with | some m => m.vendor_type | none => "unknown") ∧
    (create_error_record sf iid error raw message ts).invoice_context.extraction_model =
      (match message with | some m => m.extraction_model | none => "unknown") ∧
    (create_error_record sf iid error raw message ts).invoice_context.confidence_score =
      (match message with | some m => m.confidence_score | none => 0) ∧
    (create_error_record sf iid error raw message ts).extracted_data =
      (match message with | some m => m.extracted_data | none => []) ∧
    (create_error_record sf iid error raw message ts).raw_message = raw ∧
    (create_error_record sf iid error raw message ts).remediation_hints =
      generate_remediation_hints error ∧
    (∀ msg errs err, error = .validationError msg errs → err ∈ errs →
      err.loc = ["invoice_id"] → err.type = "missing" →
      ∃ d, (create_error_record sf iid error raw message ts).error_metadata.validation_details
          = some d ∧
        ∃ entry ∈ d.errors, entry.field = "invoice_id" ∧ entry.type = "missing") := by
  refine ⟨rfl, rfl, ?_, ?_, ?_, ?_, ?_, rfl, rfl, ?_, ?_, ?_, ?_, rfl, ?_, ?_⟩
  · cases error <;> rfl
  · cases error <;> rfl
  · cases error with
    | validationError msg errs =>
        simp [create_error_record, isValidationError]
    | exn name msg =>
        constructor
        · intro h
          exact absurd h (by simp [create_error_record, isValidationError])
        · rintro ⟨m2, e2, h⟩; cases h
  · rintro msg errs rfl; rfl
  · rintro name msg rfl; rfl
  · cases message <;> rfl
  · cases message <;> rfl
  · cases message <;> rfl
  · cases message <;> rfl
  · cases error <;> rfl
  · rintro msg errs err rfl hmem hloc hty
    refine ⟨validationDetailsOf errs, rfl, validationEntryOf err, ?_, ?_, ?_⟩
    · exact List.mem_map_of_mem validationEntryOf hmem
    · simp only [validationEntryOf, hloc]
      decide
    · simp [validationEntryOf, hty]

/-- Witness for C7: at a concrete missing-invoice_id validation error the
record's validation_details contains a missing entry for invoice_id. -/
theorem error_record_structure_witness :
    ∃ d, (create_error_record "unknown" "unknown" missingInvoiceIdExn [] none
        "2026-10-12T00:00:00+00:00").error_metadata.validation_details = some d ∧
      ∃ entry ∈ d.errors, entry.field = "invoice_id" ∧ entry.type = "missing" :=
  (error_record_structure "unknown" "unknown" missingInvoiceIdExn [] none
      "2026-10-12T00:00:00+00:00").2.2.2.2.2.2.2.2.2.2.2.2.2.2.2
    "1 validation error for ExtractedInvoice" [missingInvoiceIdErr] missingInvoiceIdErr
    rfl (by decide) (by decide) (by decide)

/-- Claim C2: per processing attempt, on the success path the handler makes
exactly one metrics call, with success=true; on any failure it makes
exactly one metrics call with success=false, carrying str(e) of the
caught exception (a raising success-path call appends nothing and is the
only other call that can precede it); and metrics failures never abort
the pipeline — the handler still returns without raising. -/
theorem one_metrics_call_per_attempt (env : Env) (c : Config)
    (hc : env.config = Except.ok c) (ha : env.adapter = Except.ok ()) :
    (∀ e, (try_body env).2 = some e →
      (((handle_invoice_extracted env).1.metrics_calls.filter fun p => !p.1.success).map
        fun p => p.1.error_message) = [some (exnStr e)]) ∧
    ((try_body env).2 = none →
      ((handle_invoice_extracted env).1.metrics_calls.map fun p => p.1.success) = [true]) ∧
    (handle_invoice_extracted env).2 = none := by
  obtain ⟨hb, hm, hn⟩ := try_body_shape env
  rcases ht : try_body env with ⟨st, o⟩
  have hfst : (try_body env).1 = st := by rw [ht]
  have hsnd : (try_body env).2 = o := by rw [ht]
  rw [hfst] at hb hm
  rw [hfst, hsnd] at hn
  refine ⟨?_, ?_, by simp [handle_invoice_extracted, hc, ha]⟩
  · intro e he
    have he2 : o = some e := he
    subst he2
    simp only [handle_invoice_extracted, hc, ha, handler_body, ht]
    rw [List.filter_append]
    have h1 : st.trace.metrics_calls.filter (fun p => !p.1.success) = [] := by
      rw [List.filter_eq_nil_iff]
      intro p hp
      simp [(hm p hp).1]
    rw [h1]
    simp [failure_metrics_call]
  · intro hnone
    have hn2 : o = none := hnone
    subst hn2
    simp only [handle_invoice_extracted, hc, ha, handler_body, ht]
    exact hn rfl

/-- Witness for C2: in the environment whose persistence reports failure,
the failure path makes exactly one success=false call carrying the
RuntimeError message. -/
theorem one_metrics_call_per_attempt_witness :
    envPersistFail.config = Except.ok cfg0 ∧
    (try_body envPersistFail).2 =
      some (.exn "RuntimeError" "BigQuery write failed: quota exceeded") ∧
    (((handle_invoice_extracted envPersistFail).1.metrics_calls.filter
        fun p => !p.1.success).map fun p => p.1.error_message) =
      [some "BigQuery write failed: quota exceeded"] :=
  ⟨rfl, by decide,
    (one_metrics_call_per_attempt envPersistFail cfg0 rfl rfl).1
      (.exn "RuntimeError" "BigQuery write failed: quota exceeded") (by decide)⟩

/-- Claim C5: a WriteResult with success=true — whatever is_duplicate says, so
in particular a detected duplicate — takes the success path: no error
artifact, exactly the one success metrics call, no escaping exception;
a WriteResult with success=false is routed into the failure path as a
RuntimeError carrying the store's error message (rendered as Python's
f-string does), and the handler still returns without raising. -/
theorem duplicate_success_and_write_failure_routing (env : Env) (c : Config)
    (raw : RawMap) (m : InvoiceExtractedMessage) (inv : ExtractedInvoice) (r : WriteResult)
    (hc : env.config = Except.ok c) (ha : env.adapter = Except.ok ())
    (hd : env.decoded = Except.ok raw)
    (hvm : env.validate_message raw = Except.ok m)
    (hvi : env.validate_invoice m.extracted_data = Except.ok inv)
    (hw : env.write_invoice inv = Except.ok r)
    (hmet : ∀ call, env.write_metrics call = Except.ok ()) :
    (r.success = true →
      (handle_invoice_extracted env).1.bucket_writes = [] ∧
      (handle_invoice_extracted env).1.metrics_calls =
        [(success_metrics_call m inv.invoice_id m.source_file, true)] ∧
      (handle_invoice_extracted env).2 = none) ∧
    (r.success = false →
      (try_body env).2 =
        some (.exn "RuntimeError" ("BigQuery write failed: " ++ pyStrOpt r.error)) ∧
      (((handle_invoice_extracted env).1.metrics_calls.filter fun p => !p.1.success).map
        fun p => p.1.error_message) =
        [some ("BigQuery write failed: " ++ pyStrOpt r.error)] ∧
      (handle_invoice_extracted env).2 = none) := by
  constructor
  · intro hr
    refine ⟨?_, ?_, by simp [handle_invoice_extracted, hc, ha]⟩
    · simp [handle_invoice_extracted, hc, ha, handler_body, try_body, hd, hvm, hvi, hw, hr,
        hmet, init_state, empty_trace]
    · simp [handle_invoice_extracted, hc, ha, handler_body, try_body, hd, hvm, hvi, hw, hr,
        hmet, init_state, empty_trace]
  · intro hr
    refine ⟨?_, ?_, by simp [handle_invoice_extracted, hc, ha]⟩
    · simp [try_body, hd, hvm, hvi, hw, hr]
    · simp [handle_invoice_extracted, hc, ha, handler_body, try_body, hd, hvm, hvi, hw, hr,
        init_state, empty_trace, failure_metrics_call, exnStr]

/-- Witness for C5: the duplicate WriteResult environment satisfies the
hypotheses and takes the success path with one success metrics call. -/
theorem duplicate_success_and_write_failure_routing_witness :
    wrDup.success = true ∧ wrDup.is_duplicate = true ∧
    (handle_invoice_extracted envDup).1.bucket_writes = [] ∧
    (handle_invoice_extracted envDup).1.metrics_calls =
      [(success_metrics_call msg0 inv0.invoice_id msg0.source_file, true)] ∧
    (handle_invoice_extracted envDup).2 = none :=
  ⟨rfl, rfl,
    ((duplicate_success_and_write_failure_routing envDup cfg0
        [("source_file", "gs://bucket/landing/ubereats_INV-UE-123_page2.tiff")] msg0 inv0
        wrDup rfl rfl rfl rfl rfl rfl (fun _ => rfl)).1 rfl).1,
    ((duplicate_success_and_write_failure_routing envDup cfg0
        [("source_file", "gs://bucket/landing/ubereats_INV-UE-123_page2.tiff")] msg0 inv0
        wrDup rfl rfl rfl rfl rfl rfl (fun _ => rfl)).1 rfl).2.1,
    ((duplicate_success_and_write_failure_routing envDup cfg0
        [("source_file", "gs://bucket/landing/ubereats_INV-UE-123_page2.tiff")] msg0 inv0
        wrDup rfl rfl rfl rfl rfl rfl (fun _ => rfl)).1 rfl).2.2⟩

/-- Claim C6: the stages run decode, envelope validation, invoice
re-validation, persistence, success metrics, in that order: a raise in
decode or either validation leaves write_invoice_to_bigquery uninvoked
(zero invoice rows) and produces exactly one error artifact (quarantine
writes succeeding), and a success metrics call is only ever made after
persistence returned a successful WriteResult. -/
theorem stage_order_and_early_failure_effects (env : Env) (c : Config)
    (hc : env.config = Except.ok c) (ha : env.adapter = Except.ok ())
    (hga : env.gcs_adapter = Except.ok ())
    (hgw : ∀ b fn rec, env.gcs_write b fn rec = Except.ok ()) :
    (∀ e, env.decoded = Except.error e →
      (handle_invoice_extracted env).1.invoice_write_attempted = false ∧
      (handle_invoice_extracted env).1.bucket_writes.length = 1) ∧
    (∀ raw e, env.decoded = Except.ok raw → env.validate_message raw = Except.error e →
      (handle_invoice_extracted env).1.invoice_write_attempted = false ∧
      (handle_invoice_extracted env).1.bucket_writes.length = 1) ∧
    (∀ raw m e, env.decoded = Except.ok raw → env.validate_message raw = Except.ok m →
      env.validate_invoice m.extracted_data = Except.error e →
      (handle_invoice_extracted env).1.invoice_write_attempted = false ∧
      (handle_invoice_extracted env).1.bucket_writes.length = 1) ∧
    (∀ p ∈ (handle_invoice_extracted env).1.metrics_calls, p.1.success = true →
      ∃ r, (handle_invoice_extracted env).1.write_result = some r ∧ r.success = true) := by
  refine ⟨?_, ?_, ?_, ?_⟩
  · intro e hd
    constructor <;>
      simp [handle_invoice_extracted, hc, ha, handler_body, try_body, hd, init_state,
        empty_trace, write_failure_to_bucket, hga, hgw]
  · intro raw e hd hvm
    constructor <;>
      simp [handle_invoice_extracted, hc, ha, handler_body, try_body, hd, hvm, init_state,
        empty_trace, write_failure_to_bucket, hga, hgw]
  · intro raw m e hd hvm hvi
    constructor <;>
      simp [handle_invoice_extracted, hc, ha, handler_body, try_body, hd, hvm, hvi,
        init_state, empty_trace, write_failure_to_bucket, hga, hgw]
  · rcases ht : try_body env with ⟨st, o⟩
    have hfst : (try_body env).1 = st := by rw [ht]
    have hm := (try_body_shape env).2.1
    rw [hfst] at hm
    cases o with
    | none =>
      simp only [handle_invoice_extracted, hc, ha, handler_body, ht]
      intro p hp hps
      exact (hm p hp).2
    | some e =>
      simp only [handle_invoice_extracted, hc, ha, handler_body, ht]
      intro p hp hps
      rcases List.mem_append.mp hp with h | h
      · exact (hm p h).2
      · simp only [List.mem_singleton] at h
        rw [h] at hps
        exact absurd hps (by simp [failure_metrics_call])

/-- Witness for C6: a decode failure leaves persistence uninvoked and
yields exactly one error artifact. -/
theorem stage_order_and_early_failure_effects_witness :
    (handle_invoice_extracted envDecodeFail).1.invoice_write_attempted = false ∧
    (handle_invoice_extracted envDecodeFail).1.bucket_writes.length = 1 :=
  (stage_order_and_early_failure_effects envDecodeFail cfg0 rfl rfl rfl
      (fun _ _ _ => rfl)).1 (.exn "JSONDecodeError" "Expecting value") rfl

/-- Claim C8: per handler invocation at most one error artifact is written to
the failed bucket, and the artifact key derived for a known source file
does not depend on the timestamp or the invoice id, so repeated failures
of the same source file produce the same key. -/
theorem at_most_one_error_artifact_and_deterministic_key (env : Env) (c : Config)
    (hc : env.config = Except.ok c) (ha : env.adapter = Except.ok ()) :
    (handle_invoice_extracted env).1.bucket_writes.length ≤ 1 ∧
    (∀ ts ts2 sf iid iid2, sf ≠ "" → sf ≠ "unknown" →
      generate_error_filename ts sf iid = generate_error_filename ts2 sf iid2) := by
  constructor
  · rcases ht : try_body env with ⟨st, o⟩
    have hfst : (try_body env).1 = st := by rw [ht]
    have hb := (try_body_shape env).1
    rw [hfst] at hb
    cases o with
    | none =>
      simp [handle_invoice_extracted, hc, ha, handler_body, ht, hb]
    | some e =>
      simp only [handle_invoice_extracted, hc, ha, handler_body, ht]
      rcases hwf : write_failure_to_bucket env c st.source_file st.invoice_id e
          (st.raw_message.getD []) st.message with e2 | fr
      · simp [hwf, hb]
      · simp [hwf, hb]
  · intro ts ts2 sf iid iid2 h1 h2
    simp [generate_error_filename, h1, h2]

/-- Witness for C8: the bound holds in the always-failing-metrics run,
and two failures of the same source file at different timestamps and
invoice ids get the same artifact key. -/
theorem at_most_one_error_artifact_and_deterministic_key_witness :
    (handle_invoice_extracted envMetricsFail).1.bucket_writes.length ≤ 1 ∧
    generate_error_filename "20261012_000000" "gs://b/landing/a_page1.tiff" "INV-1" =
      generate_error_filename "20261013_111111" "gs://b/landing/a_page1.tiff" "INV-2" :=
  ⟨(at_most_one_error_artifact_and_deterministic_key envMetricsFail cfg0 rfl rfl).1,
    (at_most_one_error_artifact_and_deterministic_key envMetricsFail cfg0 rfl rfl).2
      "20261012_000000" "20261013_111111" "gs://b/landing/a_page1.tiff" "INV-1" "INV-2"
      (by decide) (by decide)⟩

/-- Claim C9: every failure-path metrics call carries confidence_score = 0.0,
even in a run where the message parsed and its true confidence score was
available when persistence failed: there the single metrics call of the
attempt still carries 0. -/
theorem failure_metrics_confidence_always_zero (env : Env) (c : Config)
    (hc : env.config = Except.ok c) (ha : env.adapter = Except.ok ()) :
    (∀ p ∈ (handle_invoice_extracted env).1.metrics_calls,
      p.1.success = false → p.1.confidence_score = 0) ∧
    (∀ raw m inv r, env.decoded = Except.ok raw → env.validate_message raw = Except.ok m →
      env.validate_invoice m.extracted_data = Except.ok inv →
      env.write_invoice inv = Except.ok r → r.success = false →
      ((handle_invoice_extracted env).1.metrics_calls.map fun p => p.1.confidence_score) =
        [0]) := by
  constructor
  · rcases ht : try_body env with ⟨st, o⟩
    have hfst : (try_body env).1 = st := by rw [ht]
    have hm := (try_body_shape env).2.1
    rw [hfst] at hm
    cases o with
    | none =>
      simp only [handle_invoice_extracted, hc, ha, handler_body, ht]
      intro p hp hps
      rw [(hm p hp).1] at hps
      exact Bool.noConfusion hps
    | some e =>
      simp only [handle_invoice_extracted, hc, ha, handler_body, ht]
      intro p hp hps
      rcases List.mem_append.mp hp with h | h
      · rw [(hm p h).1] at hps
        exact Bool.noConfusion hps
      · simp only [List.mem_singleton] at h
        rw [h]
        rfl
  · intro raw m inv r hd hvm hvi hw hr
    simp [handle_invoice_extracted, hc, ha, handler_body, try_body, hd, hvm, hvi, hw, hr,
      init_state, empty_trace, failure_metrics_call]

/-- Witness for C9: when persistence fails after a message with real
confidence 9/10 parsed, the one metrics call of the attempt carries 0. -/
theorem failure_metrics_confidence_always_zero_witness :
    msg0.confidence_score = 9 / 10 ∧
    ((handle_invoice_extracted envPersistFail).1.metrics_calls.map
      fun p => p.1.confidence_score) = [0] :=
  ⟨rfl,
    (failure_metrics_confidence_always_zero envPersistFail cfg0 rfl rfl).2
      [("source_file", "gs://bucket/landing/ubereats_INV-UE-123_page2.tiff")] msg0 inv0
      wrFail rfl rfl rfl rfl rfl⟩
